import Mathlib

/-!  Verification of the pod-lifecycle API client (`api/pod.go`).

The file embeds the request/response translation layer of the client:
the generic JSON values produced by `encoding/json`, the typed envelope
(`PodOut`) used by `GetPods`, the untyped `map[string]interface\x7b\x7d`
decoding used by the five mutating operations, and the six public
operations themselves.  The transport (`Query`) is an external
collaborator, so each operation takes the transport's result as an argument.

Modelling conventions:
* JSON numbers are exact rationals (`ℚ`); float32 rounding and integer
  overflow of the Go runtime are idealised away (no claim depends on them).
* A response body is modelled as the raw text paired with the result of
  JSON parsing on that text (`RawBody`); the textual JSON grammar itself
  is not re-implemented.
* `encoding/json` also accepts case-insensitive key matches for struct
  fields; we model only the exact (canonical) key spelling, which is the
  spelling every claim uses.  Duplicate keys keep the last binding, as Go
  maps do.
* A Go run-time panic (failed unchecked type assertion, nil dereference)
  is the distinguished outcome `Outcome.panicked`.
-/

/-- JSON values as decoded by `encoding/json`:
`null`, booleans, numbers, strings, arrays and objects. -/
inductive JValue where
  | null : JValue
  | bool : Bool → JValue
  | num : ℚ → JValue
  | str : String → JValue
  | arr : List JValue → JValue
  | obj : List (String × JValue) → JValue

/-- A decoded JSON object, as the association list of its fields. -/
abbrev JObj := List (String × JValue)

/-- Key lookup in a decoded JSON object.  The *last* binding of a key wins,
as it does for duplicate keys decoded into a Go map or struct. -/
def jlookup (fields : JObj) (key : String) : Option JValue :=
  fields.foldl (fun acc p => if p.1 = key then some p.2 else acc) none

/-- `v.([]interface\x7b\x7d)`: the type assertion of a decoded value to a
JSON array.  `null`, absent keys and every non-array value fail. -/
def asArr : Option JValue → Option (List JValue)
  | some (.arr vs) => some vs
  | _ => none

/-- `v.(map[string]interface\x7b\x7d)`: the type assertion of a decoded
value to a JSON object.  `null`, absent keys and every non-object value
fail. -/
def asObj : Option JValue → Option JObj
  | some (.obj fs) => some fs
  | _ => none

/-- `json.Unmarshal(rawData, &data)` for `data : map[string]interface\x7b\x7d`:
succeeds on a JSON object (and on `null`, which leaves a nil map, equivalent
to the empty object for lookups), fails on every other body. -/
def decodeMap : Option JValue → Option JObj
  | some (.obj fs) => some fs
  | some .null => some []
  | _ => none

/-- `gqlErrors[0].(map[string]interface\x7b\x7d)` followed by
`firstErr["message"].(string)`: `some m` when the entry is an object whose
`message` field is a string, `none` (a Go panic) otherwise. -/
def firstErrMessage : JValue → Option String
  | .obj fs =>
    match jlookup fs "message" with
    | some (.str s) => some s
    | _ => none
  | _ => none

/-- `type Machine struct \x7b GpuDisplayName string \x7d` -/
structure Machine where
  gpuDisplayName : String
  deriving DecidableEq

/-- `type Pod struct` of `api/pod.go`.  Nilable Go fields (`Env []string`,
`Machine *Machine`) are `Option`s. -/
structure Pod where
  id : String
  containerDiskInGb : Int
  costPerHr : ℚ
  desiredStatus : String
  dockerArgs : String
  env : Option (List String)
  gpuCount : Int
  imageName : String
  memoryInGb : Int
  name : String
  podType : String
  ports : String
  vcpuCount : Int
  volumeInGb : Int
  volumeMountPath : String
  machine : Option Machine
  deriving DecidableEq

/-- `type GraphQLError struct \x7b Message string \x7d` -/
structure GraphQLError where
  message : String
  deriving DecidableEq

/-- `type MySelfData struct \x7b Pods []*Pod \x7d` (nil slice and nil
entries are `Option`s). -/
structure MySelfData where
  pods : Option (List (Option Pod))
  deriving DecidableEq

/-- `type PodData struct \x7b Myself *MySelfData \x7d` -/
structure PodData where
  myself : Option MySelfData
  deriving DecidableEq

/-- `type PodOut struct \x7b Data *PodData; Errors []*GraphQLError \x7d`.
A nil `Errors` slice and an empty one behave identically under the only
observation the code makes (`len > 0`), so both are `[]`. -/
structure PodOut where
  data : Option PodData
  errors : List (Option GraphQLError)
  deriving DecidableEq

/-- Unmarshalling a JSON value into a Go `string` field: absent keys and
`null` leave the zero value `""`; a string is taken verbatim; anything
else is an unmarshal error. -/
def decStr : Option JValue → Except String String
  | none => .ok ""
  | some .null => .ok ""
  | some (.str s) => .ok s
  | some _ => .error "cannot unmarshal value into Go string"

/-- Unmarshalling into a Go `int` field: absent/`null` give `0`; an
integral number gives its value; a fractional number or any non-number is
an unmarshal error. -/
def decInt : Option JValue → Except String Int
  | none => .ok 0
  | some .null => .ok 0
  | some (.num q) => if q.den = 1 then .ok q.num else .error "fractional number into Go int"
  | some _ => .error "cannot unmarshal value into Go int"

/-- Unmarshalling into the `float32` field (`CostPerHr`), idealised to an
exact rational. -/
def decRat : Option JValue → Except String ℚ
  | none => .ok 0
  | some .null => .ok 0
  | some (.num q) => .ok q
  | some _ => .error "cannot unmarshal value into Go float32"

/-- Unmarshalling a JSON array into `[]string` elementwise (`null`
elements leave the zero value `""`). -/
def decStrList : List JValue → Except String (List String)
  | [] => .ok []
  | .str s :: rest =>
    match decStrList rest with
    | .error e => .error e
    | .ok r => .ok (s :: r)
  | .null :: rest =>
    match decStrList rest with
    | .error e => .error e
    | .ok r => .ok ("" :: r)
  | _ :: _ => .error "cannot unmarshal array element into Go string"

/-- Unmarshalling into the `Env []string` field: absent/`null` give the
nil slice, an array decodes elementwise. -/
def decEnv : Option JValue → Except String (Option (List String))
  | none => .ok none
  | some .null => .ok none
  | some (.arr vs) =>
    match decStrList vs with
    | .error e => .error e
    | .ok xs => .ok (some xs)
  | some _ => .error "cannot unmarshal value into Go string slice"

/-- Unmarshalling into the `Machine *Machine` field. -/
def decMachine : Option JValue → Except String (Option Machine)
  | none => .ok none
  | some .null => .ok none
  | some (.obj fs) =>
    match decStr (jlookup fs "gpuDisplayName") with
    | .error e => .error e
    | .ok g => .ok (some ⟨g⟩)
  | some _ => .error "cannot unmarshal value into Machine"

/-- Unmarshalling one element of the `Pods []*Pod` slice. -/
def decPod : JValue → Except String (Option Pod)
  | .null => .ok none
  | .obj fs => do
    let i ← decStr (jlookup fs "id")
    let cd ← decInt (jlookup fs "containerDiskInGb")
    let cph ← decRat (jlookup fs "costPerHr")
    let ds ← decStr (jlookup fs "desiredStatus")
    let da ← decStr (jlookup fs "dockerArgs")
    let ev ← decEnv (jlookup fs "env")
    let gc ← decInt (jlookup fs "gpuCount")
    let im ← decStr (jlookup fs "imageName")
    let mg ← decInt (jlookup fs "memoryInGb")
    let nm ← decStr (jlookup fs "name")
    let pt ← decStr (jlookup fs "podType")
    let po ← decStr (jlookup fs "ports")
    let vc ← decInt (jlookup fs "vcpuCount")
    let vg ← decInt (jlookup fs "volumeInGb")
    let vmp ← decStr (jlookup fs "volumeMountPath")
    let mach ← decMachine (jlookup fs "machine")
    .ok (some ⟨i, cd, cph, ds, da, ev, gc, im, mg, nm, pt, po, vc, vg, vmp, mach⟩)
  | _ => .error "cannot unmarshal value into Pod"

/-- Unmarshalling the elements of the `pods` array. -/
def decPodList : List JValue → Except String (List (Option Pod))
  | [] => .ok []
  | v :: rest =>
    match decPod v with
    | .error e => .error e
    | .ok po =>
      match decPodList rest with
      | .error e => .error e
      | .ok r => .ok (po :: r)

/-- Unmarshalling into the `Pods []*Pod` field. -/
def decPods : Option JValue → Except String (Option (List (Option Pod)))
  | none => .ok none
  | some .null => .ok none
  | some (.arr vs) =>
    match decPodList vs with
    | .error e => .error e
    | .ok ps => .ok (some ps)
  | some _ => .error "cannot unmarshal value into Go Pod slice"

/-- Unmarshalling into `Myself *MySelfData`. -/
def decMyself : Option JValue → Except String (Option MySelfData)
  | none => .ok none
  | some .null => .ok none
  | some (.obj fs) =>
    match decPods (jlookup fs "pods") with
    | .error e => .error e
    | .ok ps => .ok (some ⟨ps⟩)
  | some _ => .error "cannot unmarshal value into MySelfData"

/-- Unmarshalling into `Data *PodData` (json tag `data`). -/
def decData : Option JValue → Except String (Option PodData)
  | none => .ok none
  | some .null => .ok none
  | some (.obj fs) =>
    match decMyself (jlookup fs "myself") with
    | .error e => .error e
    | .ok my => .ok (some ⟨my⟩)
  | some _ => .error "cannot unmarshal value into PodData"

/-- Unmarshalling one element of the `Errors []*GraphQLError` slice. -/
def decGQLError : JValue → Except String (Option GraphQLError)
  | .null => .ok none
  | .obj fs =>
    match decStr (jlookup fs "message") with
    | .error e => .error e
    | .ok m => .ok (some ⟨m⟩)
  | _ => .error "cannot unmarshal value into GraphQLError"

/-- Unmarshalling the elements of the `errors` array. -/
def decGQLErrorList : List JValue → Except String (List (Option GraphQLError))
  | [] => .ok []
  | v :: rest =>
    match decGQLError v with
    | .error e => .error e
    | .ok ge =>
      match decGQLErrorList rest with
      | .error e => .error e
      | .ok r => .ok (ge :: r)

/-- Unmarshalling into `Errors []*GraphQLError` (json tag `errors`). -/
def decErrors : Option JValue → Except String (List (Option GraphQLError))
  | none => .ok []
  | some .null => .ok []
  | some (.arr vs) => decGQLErrorList vs
  | some _ => .error "cannot unmarshal value into Go GraphQLError slice"

/-- `json.Unmarshal(rawData, data)` for `data : *PodOut` (`GetPods`).
`none` is an unparseable body; JSON `null` leaves the zero `PodOut`. -/
def decodePodOut : Option JValue → Except String PodOut
  | none => .error "invalid JSON body"
  | some .null => .ok ⟨none, []⟩
  | some (.obj fs) => do
    let d ← decData (jlookup fs "data")
    let es ← decErrors (jlookup fs "errors")
    .ok ⟨d, es⟩
  | some _ => .error "cannot unmarshal value into PodOut"

/-- `type PodEnv struct` of `api/pod.go`. -/
structure PodEnv where
  key : String
  value : String
  deriving DecidableEq

/-- `type CreatePodInput struct` of `api/pod.go` (field order as in the
source; `Env []*PodEnv` entries are nilable). -/
structure CreatePodInput where
  cloudType : String
  containerDiskInGb : Int
  deployCost : ℚ
  dockerArgs : String
  env : List (Option PodEnv)
  gpuCount : Int
  gpuTypeId : String
  imageName : String
  minMemoryInGb : Int
  minVcpuCount : Int
  name : String
  ports : String
  templateId : String
  volumeInGb : Int
  volumeMountPath : String
  deriving DecidableEq

/-- Splitting a character list at every occurrence of the separator; the
result is never empty. -/
def splitChars (sep : Char) : List Char → List (List Char)
  | [] => [[]]
  | c :: rest =>
    match splitChars sep rest with
    | [] => [[]]
    | g :: gs => if c = sep then [] :: g :: gs else (c :: g) :: gs

/-- `strings.Split(s, sep)` for the single-character separator used in
`CreatePod`: splits on every occurrence of `sep` and yields `[s]` when
`sep` does not occur (in particular `[""]` on the empty string), exactly
the Go semantics for a non-empty separator. -/
def goSplit (s : String) (sep : Char) : List String :=
  (splitChars sep s.data).map List.asString

/-- The name-derivation step at the top of `CreatePod`: if `Name` is
empty it becomes the first segment of `ImageName` split on `:`
(`strings.Split` with a non-empty separator never returns an empty
list, so index 0 is total). -/
def deriveName (podInput : CreatePodInput) : CreatePodInput :=
  if podInput.name = "" then
    { podInput with name := (goSplit podInput.imageName ':').headI }
  else podInput

/-- The value bound to the `input` variable of the `createPod` mutation:
the caller's `CreatePodInput` after name derivation (the struct is
mutated in place before being placed into `Variables`). -/
def CreatePodVariablesInput (podInput : CreatePodInput) : CreatePodInput :=
  deriveName podInput

/-- The distinct error constructions of `api/pod.go`, one constructor per
`err = ...` site shape:
* `transport e` — the error of `Query` itself, propagated;
* `status c` — `fmt.Errorf("statuscode %d", c)`;
* `statusBody c b` — `fmt.Errorf("statuscode %d: %s", c, b)` (`CreatePod`);
* `statusPodBidResume c` — `fmt.Errorf("PodBidResume: statuscode %d", c)`;
* `readFail e` — the error of `io.ReadAll`, propagated;
* `unmarshalFail e` — the error of `json.Unmarshal`, propagated;
* `graphql m` — `errors.New(firstErr["message"].(string))`;
* `dataNil raw` — `fmt.Errorf("data is nil: %s", raw)`;
* `keyNil label raw` — `fmt.Errorf("<label> is nil: %s", raw)`. -/
inductive ApiErr where
  | transport : String → ApiErr
  | status : Int → ApiErr
  | statusBody : Int → String → ApiErr
  | statusPodBidResume : Int → ApiErr
  | readFail : String → ApiErr
  | unmarshalFail : String → ApiErr
  | graphql : String → ApiErr
  | dataNil : String → ApiErr
  | keyNil : String → String → ApiErr
  deriving DecidableEq

/-- The message string of the Go `error` value each constructor models. -/
def ApiErr.message : ApiErr → String
  | .transport e => e
  | .status c => "statuscode " ++ toString c
  | .statusBody c b => "statuscode " ++ toString c ++ ": " ++ b
  | .statusPodBidResume c => "PodBidResume: statuscode " ++ toString c
  | .readFail e => e
  | .unmarshalFail e => e
  | .graphql m => m
  | .dataNil raw => "data is nil: " ++ raw
  | .keyNil label raw => label ++ " is nil: " ++ raw

/-- The kind (construction site shape) of an error, the granularity at
which a caller can classify failures. -/
inductive ErrKind where
  | transportK
  | statusK
  | statusBodyK
  | statusPodBidResumeK
  | readFailK
  | unmarshalFailK
  | graphqlK
  | dataNilK
  | keyNilK
  deriving DecidableEq

/-- Kind of an error value. -/
def ApiErr.kind : ApiErr → ErrKind
  | .transport _ => .transportK
  | .status _ => .statusK
  | .statusBody _ _ => .statusBodyK
  | .statusPodBidResume _ => .statusPodBidResumeK
  | .readFail _ => .readFailK
  | .unmarshalFail _ => .unmarshalFailK
  | .graphql _ => .graphqlK
  | .dataNil _ => .dataNilK
  | .keyNil _ _ => .keyNilK

/-- Result of one operation: a returned value, a returned Go error, or a
run-time panic (which never returns to the caller). -/
inductive Outcome (α : Type) where
  | ok : α → Outcome α
  | err : ApiErr → Outcome α
  | panicked : Outcome α
  deriving DecidableEq

/-- A response body: the raw bytes `io.ReadAll` produced, paired with the
result of JSON-parsing those bytes (`none` = not valid JSON). -/
structure RawBody where
  text : String
  json : Option JValue

/-- The transport's `*http.Response` as consumed here: status code plus
the outcome of reading the body stream. -/
structure Response where
  statusCode : Int
  bodyRead : Except String RawBody

/-- The result of the `Query` transport call. -/
abbrev QueryResult := Except String Response

/-- The block shared verbatim by the five map-decoding operations:
unmarshal the raw body into `map[string]interface\x7b\x7d`, fail with the
first GraphQL error's message when `errors` is a non-empty array (panic
when its first entry has no string `message`), then extract the `data`
object, failing with `data is nil` when it is absent, null or not an
object. -/
def mapEnvelopeData (raw : RawBody) : Outcome JObj
  :=
  match decodeMap raw.json with
  | none => .err (.unmarshalFail "json: cannot unmarshal body into map")
  | some data =>
    match asArr (jlookup data "errors") with
    | some (e :: _) =>
      match firstErrMessage e with
      | some m => .err (.graphql m)
      | none => .panicked
    | _ =>
      match asObj (jlookup data "data") with
      | some gqldata => .ok gqldata
      | none => .err (.dataNil raw.text)

/-- `func GetPods() ([]*Pod, error)` given the transport result: status
check, body read, typed unmarshal into `PodOut`, errors-list check, then
the `data.myself.pods` nil chain. -/
def GetPods (qr : QueryResult) : Outcome (List (Option Pod)) :=
  match qr with
  | .error e => .err (.transport e)
  | .ok res =>
    if res.statusCode ≠ 200 then .err (.status res.statusCode)
    else
      match res.bodyRead with
      | .error e => .err (.readFail e)
      | .ok raw =>
        match decodePodOut raw.json with
        | .error e => .err (.unmarshalFail e)
        | .ok out =>
          match out.errors with
          | some ge :: _ => .err (.graphql ge.message)
          | none :: _ => .panicked
          | [] =>
            match out.data with
            | none => .err (.dataNil raw.text)
            | some d =>
              match d.myself with
              | none => .err (.dataNil raw.text)
              | some my =>
                match my.pods with
                | none => .err (.dataNil raw.text)
                | some pods => .ok pods

/-- `func CreatePod(podInput *CreatePodInput)` given the transport
result.  The first component is the caller's input struct after the call
(the name derivation writes through the pointer).  Note the body is read
*before* the status check, and the status error carries the raw body. -/
def CreatePod (podInput : CreatePodInput) (qr : QueryResult) :
    CreatePodInput × Outcome JObj :=
  let p := deriveName podInput
  (p,
    match qr with
    | .error e => .err (.transport e)
    | .ok res =>
      match res.bodyRead with
      | .error e => .err (.readFail e)
      | .ok raw =>
        if res.statusCode ≠ 200 then .err (.statusBody res.statusCode raw.text)
        else
          match mapEnvelopeData raw with
          | .err e => .err e
          | .panicked => .panicked
          | .ok gqldata =>
            match asObj (jlookup gqldata "podFindAndDeployOnDemand") with
            | some pod => .ok pod
            | none => .err (.keyNil "pod" raw.text))

/-- `func StopPod(id string)` given the transport result. -/
def StopPod (id : String) (qr : QueryResult) : Outcome JObj :=
  match qr with
  | .error e => .err (.transport e)
  | .ok res =>
    if res.statusCode ≠ 200 then .err (.status res.statusCode)
    else
      match res.bodyRead with
      | .error e => .err (.readFail e)
      | .ok raw =>
        match mapEnvelopeData raw with
        | .err e => .err e
        | .panicked => .panicked
        | .ok gqldata =>
          match asObj (jlookup gqldata "podStop") with
          | some podStop => .ok podStop
          | none => .err (.keyNil "podStop" raw.text)

/-- `func RemovePod(id string) (ok bool, err error)` given the transport
result.  On the success path the returned boolean is *presence* of the
`podTerminate` key (`_, ok = gqldata["podTerminate"]`); no error is set
when the key is absent. -/
def RemovePod (id : String) (qr : QueryResult) : Outcome Bool :=
  match qr with
  | .error e => .err (.transport e)
  | .ok res =>
    if res.statusCode ≠ 200 then .err (.status res.statusCode)
    else
      match res.bodyRead with
      | .error e => .err (.readFail e)
      | .ok raw =>
        match mapEnvelopeData raw with
        | .err e => .err e
        | .panicked => .panicked
        | .ok gqldata => .ok (jlookup gqldata "podTerminate").isSome

/-- `func StartOnDemandPod(id string)` given the transport result (its
status error is prefixed `PodBidResume:`, its key error labelled `pod`). -/
def StartOnDemandPod (id : String) (qr : QueryResult) : Outcome JObj :=
  match qr with
  | .error e => .err (.transport e)
  | .ok res =>
    if res.statusCode ≠ 200 then .err (.statusPodBidResume res.statusCode)
    else
      match res.bodyRead with
      | .error e => .err (.readFail e)
      | .ok raw =>
        match mapEnvelopeData raw with
        | .err e => .err e
        | .panicked => .panicked
        | .ok gqldata =>
          match asObj (jlookup gqldata "podResume") with
          | some pod => .ok pod
          | none => .err (.keyNil "pod" raw.text)

/-- `func StartSpotPod(id string, bidPerGpu float32)` given the transport
result. -/
def StartSpotPod (id : String) (bidPerGpu : ℚ) (qr : QueryResult) : Outcome JObj :=
  match qr with
  | .error e => .err (.transport e)
  | .ok res =>
    if res.statusCode ≠ 200 then .err (.statusPodBidResume res.statusCode)
    else
      match res.bodyRead with
      | .error e => .err (.readFail e)
      | .ok raw =>
        match mapEnvelopeData raw with
        | .err e => .err e
        | .panicked => .panicked
        | .ok gqldata =>
          match asObj (jlookup gqldata "podBidResume") with
          | some pod => .ok pod
          | none => .err (.keyNil "podBidResume" raw.text)

/-- C1: for each of the six operations, a transport response whose status
code is not 200 and whose body is a readable envelope with a non-empty
`errors` list and null `data` is classified as the status-code error
(carrying the code), never as the GraphQL error of the errors list and
never as a missing-data error: the status check takes precedence. -/
theorem C1_status_precedes_graphql_and_missing_data
    (code : Int) (hc : code ≠ 200) (raw : RawBody) (fields : JObj)
    (e : JValue) (es : List JValue)
    (hj : raw.json = some (.obj fields))
    (herr : jlookup fields "errors" = some (.arr (e :: es)))
    (hdata : jlookup fields "data" = some .null)
    (id : String) (bid : ℚ) (p : CreatePodInput) :
    GetPods (.ok ⟨code, .ok raw⟩) = .err (.status code) ∧
    (CreatePod p (.ok ⟨code, .ok raw⟩)).2 = .err (.statusBody code raw.text) ∧
    StopPod id (.ok ⟨code, .ok raw⟩) = .err (.status code) ∧
    RemovePod id (.ok ⟨code, .ok raw⟩) = .err (.status code) ∧
    StartOnDemandPod id (.ok ⟨code, .ok raw⟩) = .err (.statusPodBidResume code) ∧
    StartSpotPod id bid (.ok ⟨code, .ok raw⟩) = .err (.statusPodBidResume code) := by
  refine ⟨?_, ?_, ?_, ?_, ?_, ?_⟩ <;>
    simp [GetPods, CreatePod, StopPod, RemovePod, StartOnDemandPod, StartSpotPod, hc]

/-- C1 witness: a concrete status-500 response whose body is a readable
envelope with one error entry and null data yields the status errors. -/
theorem C1_witness :
    GetPods (.ok ⟨500, .ok ⟨"tx",
        some (.obj [("errors", .arr [.obj [("message", .str "A")]]), ("data", .null)])⟩⟩)
      = .err (.status 500) ∧
    (CreatePod ⟨"", 0, 0, "", [], 0, "", "img", 0, 0, "nm", "", "", 0, ""⟩
        (.ok ⟨500, .ok ⟨"tx",
          some (.obj [("errors", .arr [.obj [("message", .str "A")]]), ("data", .null)])⟩⟩)).2
      = .err (.statusBody 500 "tx") ∧
    StopPod "p1" (.ok ⟨500, .ok ⟨"tx",
        some (.obj [("errors", .arr [.obj [("message", .str "A")]]), ("data", .null)])⟩⟩)
      = .err (.status 500) ∧
    RemovePod "p1" (.ok ⟨500, .ok ⟨"tx",
        some (.obj [("errors", .arr [.obj [("message", .str "A")]]), ("data", .null)])⟩⟩)
      = .err (.status 500) ∧
    StartOnDemandPod "p1" (.ok ⟨500, .ok ⟨"tx",
        some (.obj [("errors", .arr [.obj [("message", .str "A")]]), ("data", .null)])⟩⟩)
      = .err (.statusPodBidResume 500) ∧
    StartSpotPod "p1" 1 (.ok ⟨500, .ok ⟨"tx",
        some (.obj [("errors", .arr [.obj [("message", .str "A")]]), ("data", .null)])⟩⟩)
      = .err (.statusPodBidResume 500) :=
  C1_status_precedes_graphql_and_missing_data 500 (by decide)
    ⟨"tx", some (.obj [("errors", .arr [.obj [("message", .str "A")]]), ("data", .null)])⟩
    _ _ _ rfl rfl rfl "p1" 1 ⟨"", 0, 0, "", [], 0, "", "img", 0, 0, "nm", "", "", 0, ""⟩

/-- C2: for each of the six operations, a status-200 response whose
envelope has a non-empty `errors` list and null `data` fails with the
GraphQL error carrying exactly the first entry's message; the remaining
entries are discarded and the result is never a missing-data error. -/
theorem C2_graphql_error_uses_first_message
    (raw : RawBody) (fields : JObj) (e : JValue) (es : List JValue)
    (m : String) (out : PodOut) (rest : List (Option GraphQLError))
    (hj : raw.json = some (.obj fields))
    (herr : asArr (jlookup fields "errors") = some (e :: es))
    (hmsg : firstErrMessage e = some m)
    (hout : decodePodOut raw.json = .ok out)
    (houtErr : out.errors = some ⟨m⟩ :: rest)
    (id : String) (bid : ℚ) (p : CreatePodInput) :
    GetPods (.ok ⟨200, .ok raw⟩) = .err (.graphql m) ∧
    (CreatePod p (.ok ⟨200, .ok raw⟩)).2 = .err (.graphql m) ∧
    StopPod id (.ok ⟨200, .ok raw⟩) = .err (.graphql m) ∧
    RemovePod id (.ok ⟨200, .ok raw⟩) = .err (.graphql m) ∧
    StartOnDemandPod id (.ok ⟨200, .ok raw⟩) = .err (.graphql m) ∧
    StartSpotPod id bid (.ok ⟨200, .ok raw⟩) = .err (.graphql m) := by
  have hmap : decodeMap raw.json = some fields := by rw [hj]; rfl
  refine ⟨?_, ?_, ?_, ?_, ?_, ?_⟩ <;>
    simp [GetPods, CreatePod, StopPod, RemovePod, StartOnDemandPod, StartSpotPod,
      mapEnvelopeData, hmap, herr, hmsg, hout, houtErr]

/-- C2 witness: the spec's example `errors: [A-message, B-message]` with
null data at status 200 reports exactly message `A` for all six
operations. -/
theorem C2_witness :
    GetPods (.ok ⟨200, .ok ⟨"tx",
        some (.obj [("errors", .arr [.obj [("message", .str "A")],
          .obj [("message", .str "B")]]), ("data", .null)])⟩⟩)
      = .err (.graphql "A") ∧
    (CreatePod ⟨"", 0, 0, "", [], 0, "", "img", 0, 0, "nm", "", "", 0, ""⟩
        (.ok ⟨200, .ok ⟨"tx",
          some (.obj [("errors", .arr [.obj [("message", .str "A")],
            .obj [("message", .str "B")]]), ("data", .null)])⟩⟩)).2
      = .err (.graphql "A") ∧
    StopPod "p1" (.ok ⟨200, .ok ⟨"tx",
        some (.obj [("errors", .arr [.obj [("message", .str "A")],
          .obj [("message", .str "B")]]), ("data", .null)])⟩⟩)
      = .err (.graphql "A") ∧
    RemovePod "p1" (.ok ⟨200, .ok ⟨"tx",
        some (.obj [("errors", .arr [.obj [("message", .str "A")],
          .obj [("message", .str "B")]]), ("data", .null)])⟩⟩)
      = .err (.graphql "A") ∧
    StartOnDemandPod "p1" (.ok ⟨200, .ok ⟨"tx",
        some (.obj [("errors", .arr [.obj [("message", .str "A")],
          .obj [("message", .str "B")]]), ("data", .null)])⟩⟩)
      = .err (.graphql "A") ∧
    StartSpotPod "p1" 1 (.ok ⟨200, .ok ⟨"tx",
        some (.obj [("errors", .arr [.obj [("message", .str "A")],
          .obj [("message", .str "B")]]), ("data", .null)])⟩⟩)
      = .err (.graphql "A") :=
  C2_graphql_error_uses_first_message
    ⟨"tx", some (.obj [("errors", .arr [.obj [("message", .str "A")],
      .obj [("message", .str "B")]]), ("data", .null)])⟩
    _ _ _ "A" ⟨none, [some ⟨"A"⟩, some ⟨"B"⟩]⟩ [some ⟨"B"⟩]
    rfl rfl rfl rfl rfl "p1" 1 ⟨"", 0, 0, "", [], 0, "", "img", 0, 0, "nm", "", "", 0, ""⟩

/-- C3 counterexample: for `CreatePod` the body is read *before* the
status check, so a non-200 response whose body read fails is reported as
the body-read failure, not as the claimed status-code error. -/
theorem C3_counterexample :
    (CreatePod ⟨"", 0, 0, "", [], 0, "", "img", 0, 0, "nm", "", "", 0, ""⟩
        (.ok ⟨500, .error "read failed"⟩)).2 = .err (.readFail "read failed") := rfl

/-- C3 amended: for the five operations other than `CreatePod`, the
non-200-status check precedes the body read — they return the status
error for any body-read outcome, including a failing one; `CreatePod`
reads the body first and propagates a body-read failure regardless of the
status code. -/
theorem C3_status_check_order
    (code : Int) (hc : code ≠ 200) (br : Except String RawBody)
    (id : String) (bid : ℚ) (p : CreatePodInput) (e : String) (code2 : Int) :
    GetPods (.ok ⟨code, br⟩) = .err (.status code) ∧
    StopPod id (.ok ⟨code, br⟩) = .err (.status code) ∧
    RemovePod id (.ok ⟨code, br⟩) = .err (.status code) ∧
    StartOnDemandPod id (.ok ⟨code, br⟩) = .err (.statusPodBidResume code) ∧
    StartSpotPod id bid (.ok ⟨code, br⟩) = .err (.statusPodBidResume code) ∧
    (CreatePod p (.ok ⟨code2, .error e⟩)).2 = .err (.readFail e) := by
  refine ⟨?_, ?_, ?_, ?_, ?_, ?_⟩ <;>
    simp [GetPods, StopPod, RemovePod, StartOnDemandPod, StartSpotPod, CreatePod, hc]

/-- C3 witness: at status 500 with a failing body read, the five
status-first operations report the status error and `CreatePod` reports
the read failure. -/
theorem C3_witness :
    GetPods (.ok ⟨500, .error "boom"⟩) = .err (.status 500) ∧
    StopPod "p1" (.ok ⟨500, .error "boom"⟩) = .err (.status 500) ∧
    RemovePod "p1" (.ok ⟨500, .error "boom"⟩) = .err (.status 500) ∧
    StartOnDemandPod "p1" (.ok ⟨500, .error "boom"⟩) = .err (.statusPodBidResume 500) ∧
    StartSpotPod "p1" 1 (.ok ⟨500, .error "boom"⟩) = .err (.statusPodBidResume 500) ∧
    (CreatePod ⟨"", 0, 0, "", [], 0, "", "img", 0, 0, "nm", "", "", 0, ""⟩
        (.ok ⟨500, .error "boom"⟩)).2 = .err (.readFail "boom") :=
  C3_status_check_order 500 (by decide) (.error "boom") "p1" 1
    ⟨"", 0, 0, "", [], 0, "", "img", 0, 0, "nm", "", "", 0, ""⟩ "boom" 500

/-- C4 counterexample: for `RemovePod`, a status-200 response with body
data `\x7b\x7d` (key `podTerminate` absent) does *not* yield a
missing-data error result: the function returns `ok = false` with a nil
error. -/
theorem C4_counterexample :
    RemovePod "p1" (.ok ⟨200, .ok ⟨"t2", some (.obj [("data", .obj [])])⟩⟩)
      = .ok false := rfl

/-- C4 amended: `RemovePod` treats a present `podTerminate` key — even
bound to `null` or a scalar — as success `(true, nil)`, and an absent key
as `(false, nil)`: success is determined purely by key presence, and the
absent-key case is signalled through the returned boolean, not through an
error value. -/
theorem C4_presence_only_success :
    RemovePod "p1" (.ok ⟨200, .ok ⟨"t1",
        some (.obj [("data", .obj [("podTerminate", .null)])])⟩⟩) = .ok true ∧
    RemovePod "p1" (.ok ⟨200, .ok ⟨"t3",
        some (.obj [("data", .obj [("podTerminate", .num 5)])])⟩⟩) = .ok true ∧
    RemovePod "p1" (.ok ⟨200, .ok ⟨"t2",
        some (.obj [("data", .obj [])])⟩⟩) = .ok false :=
  ⟨rfl, rfl, rfl⟩

/-- C5 counterexample: `StopPod` at a non-200 status returns a status
error that carries only the code — its message is exactly
`statuscode 500` with no trace of the response body, contradicting the
claim that every mutating operation's status error carries the raw body
text. -/
theorem C5_counterexample :
    StopPod "p1" (.ok ⟨500, .ok ⟨"THE RAW BODY", some .null⟩⟩) = .err (.status 500) ∧
    (ApiErr.status 500).message = "statuscode 500" := ⟨rfl, rfl⟩

/-- C5 amended: among the mutating operations only `CreatePod`'s status
error carries the raw body text (`statuscode %d: %s`); `StopPod` and
`RemovePod` carry only the code (`statuscode %d`), and
`StartOnDemandPod`/`StartSpotPod` carry only the code behind a
`PodBidResume:` prefix. -/
theorem C5_status_error_payloads
    (code : Int) (hc : code ≠ 200) (raw : RawBody) (br : Except String RawBody)
    (id : String) (bid : ℚ) (p : CreatePodInput) :
    (CreatePod p (.ok ⟨code, .ok raw⟩)).2 = .err (.statusBody code raw.text) ∧
    (ApiErr.statusBody code raw.text).message
      = "statuscode " ++ toString code ++ ": " ++ raw.text ∧
    StopPod id (.ok ⟨code, br⟩) = .err (.status code) ∧
    RemovePod id (.ok ⟨code, br⟩) = .err (.status code) ∧
    (ApiErr.status code).message = "statuscode " ++ toString code ∧
    StartOnDemandPod id (.ok ⟨code, br⟩) = .err (.statusPodBidResume code) ∧
    StartSpotPod id bid (.ok ⟨code, br⟩) = .err (.statusPodBidResume code) ∧
    (ApiErr.statusPodBidResume code).message
      = "PodBidResume: statuscode " ++ toString code := by
  refine ⟨?_, rfl, ?_, ?_, rfl, ?_, ?_, rfl⟩ <;>
    simp [CreatePod, StopPod, RemovePod, StartOnDemandPod, StartSpotPod, hc]

/-- C5 witness: at status 404 with body text `oops`, `CreatePod` carries
the body in its status error and the other mutating operations carry only
the code. -/
theorem C5_witness :
    (CreatePod ⟨"", 0, 0, "", [], 0, "", "img", 0, 0, "nm", "", "", 0, ""⟩
        (.ok ⟨404, .ok ⟨"oops", none⟩⟩)).2 = .err (.statusBody 404 "oops") ∧
    (ApiErr.statusBody 404 "oops").message = "statuscode " ++ toString (404 : Int) ++ ": " ++ "oops" ∧
    StopPod "p1" (.ok ⟨404, .ok ⟨"oops", none⟩⟩) = .err (.status 404) ∧
    RemovePod "p1" (.ok ⟨404, .ok ⟨"oops", none⟩⟩) = .err (.status 404) ∧
    (ApiErr.status 404).message = "statuscode " ++ toString (404 : Int) ∧
    StartOnDemandPod "p1" (.ok ⟨404, .ok ⟨"oops", none⟩⟩) = .err (.statusPodBidResume 404) ∧
    StartSpotPod "p1" 1 (.ok ⟨404, .ok ⟨"oops", none⟩⟩) = .err (.statusPodBidResume 404) ∧
    (ApiErr.statusPodBidResume 404).message = "PodBidResume: statuscode " ++ toString (404 : Int) :=
  C5_status_error_payloads 404 (by decide) ⟨"oops", none⟩ (.ok ⟨"oops", none⟩) "p1" 1
    ⟨"", 0, 0, "", [], 0, "", "img", 0, 0, "nm", "", "", 0, ""⟩

/-- C6 counterexample: for `StopPod`, a present-but-scalar `podStop`
value and an absent `podStop` key produce errors of the *same*
construction (`<key> is nil: <raw body>`): there is no ShapeMismatch
error distinguishable by kind from the missing-key failure. -/
theorem C6_counterexample :
    StopPod "p1" (.ok ⟨200, .ok ⟨"t1",
        some (.obj [("data", .obj [("podStop", .num 5)])])⟩⟩)
      = .err (.keyNil "podStop" "t1") ∧
    StopPod "p1" (.ok ⟨200, .ok ⟨"t2",
        some (.obj [("data", .obj [])])⟩⟩)
      = .err (.keyNil "podStop" "t2") ∧
    (ApiErr.keyNil "podStop" "t1").kind = (ApiErr.keyNil "podStop" "t2").kind :=
  ⟨rfl, rfl, rfl⟩

/-- C6 amended: for the four map-decoding operations that extract an
object payload, a status-200 envelope without errors whose expected key
is absent, null, or bound to a non-object value yields one and the same
`<key> is nil` error in all three cases — the code has no separate
ShapeMismatch error, and wrong shape is indistinguishable by error kind
from the missing key. -/
theorem C6_shape_mismatch_not_distinguished
    (raw : RawBody) (fields g : JObj)
    (hj : raw.json = some (.obj fields))
    (herr : asArr (jlookup fields "errors") = none)
    (hd : jlookup fields "data" = some (.obj g))
    (h1 : asObj (jlookup g "podFindAndDeployOnDemand") = none)
    (h2 : asObj (jlookup g "podStop") = none)
    (h3 : asObj (jlookup g "podResume") = none)
    (h4 : asObj (jlookup g "podBidResume") = none)
    (id : String) (bid : ℚ) (p : CreatePodInput) :
    (CreatePod p (.ok ⟨200, .ok raw⟩)).2 = .err (.keyNil "pod" raw.text) ∧
    StopPod id (.ok ⟨200, .ok raw⟩) = .err (.keyNil "podStop" raw.text) ∧
    StartOnDemandPod id (.ok ⟨200, .ok raw⟩) = .err (.keyNil "pod" raw.text) ∧
    StartSpotPod id bid (.ok ⟨200, .ok raw⟩) = .err (.keyNil "podBidResume" raw.text) := by
  have hmap : decodeMap raw.json = some fields := by rw [hj]; rfl
  refine ⟨?_, ?_, ?_, ?_⟩ <;>
    simp [CreatePod, StopPod, StartOnDemandPod, StartSpotPod, mapEnvelopeData,
      hmap, herr, hd, show asObj (some (.obj g)) = some g from rfl, h1, h2, h3, h4]

/-- C6 witness: a single envelope in which each of the four expected
payload keys is present but not an object (scalar, string, array, null)
yields the `<key> is nil` error for every operation. -/
theorem C6_witness :
    (CreatePod ⟨"", 0, 0, "", [], 0, "", "img", 0, 0, "nm", "", "", 0, ""⟩
        (.ok ⟨200, .ok ⟨"tw", some (.obj [("data", .obj
          [("podFindAndDeployOnDemand", .str "x"), ("podStop", .num 5),
           ("podResume", .arr []), ("podBidResume", .null)])])⟩⟩)).2
      = .err (.keyNil "pod" "tw") ∧
    StopPod "p1" (.ok ⟨200, .ok ⟨"tw", some (.obj [("data", .obj
          [("podFindAndDeployOnDemand", .str "x"), ("podStop", .num 5),
           ("podResume", .arr []), ("podBidResume", .null)])])⟩⟩)
      = .err (.keyNil "podStop" "tw") ∧
    StartOnDemandPod "p1" (.ok ⟨200, .ok ⟨"tw", some (.obj [("data", .obj
          [("podFindAndDeployOnDemand", .str "x"), ("podStop", .num 5),
           ("podResume", .arr []), ("podBidResume", .null)])])⟩⟩)
      = .err (.keyNil "pod" "tw") ∧
    StartSpotPod "p1" 1 (.ok ⟨200, .ok ⟨"tw", some (.obj [("data", .obj
          [("podFindAndDeployOnDemand", .str "x"), ("podStop", .num 5),
           ("podResume", .arr []), ("podBidResume", .null)])])⟩⟩)
      = .err (.keyNil "podBidResume" "tw") :=
  C6_shape_mismatch_not_distinguished
    ⟨"tw", some (.obj [("data", .obj
      [("podFindAndDeployOnDemand", .str "x"), ("podStop", .num 5),
       ("podResume", .arr []), ("podBidResume", .null)])])⟩
    _ _ rfl rfl rfl rfl rfl rfl rfl "p1" 1
    ⟨"", 0, 0, "", [], 0, "", "img", 0, 0, "nm", "", "", 0, ""⟩

/-- C7: when `Name` is empty, the value encoded into the mutation's
`input` variable carries a name equal to the first segment of `ImageName`
split on `:` (unchanged when there is no colon); a non-empty `Name` is
passed through with the whole input untouched. -/
theorem C7_name_derivation (p : CreatePodInput) :
    (p.name = "" →
      (CreatePodVariablesInput p).name = (goSplit p.imageName ':').headI) ∧
    (p.name ≠ "" → CreatePodVariablesInput p = p) := by
  constructor <;> intro h <;> simp [CreatePodVariablesInput, deriveName, h]

/-- C7 witness: the spec's examples — `Name = ""` with
`ImageName = "foo/bar:latest"` encodes name `foo/bar`, `Name = ""` with
colon-free `ImageName = "foo/bar"` encodes `foo/bar` unchanged, and a
non-empty name is passed through as given. -/
theorem C7_witness :
    (CreatePodVariablesInput
        ⟨"", 0, 0, "", [], 0, "", "foo/bar:latest", 0, 0, "", "", "", 0, ""⟩).name
      = "foo/bar" ∧
    (CreatePodVariablesInput
        ⟨"", 0, 0, "", [], 0, "", "foo/bar", 0, 0, "", "", "", 0, ""⟩).name
      = "foo/bar" ∧
    CreatePodVariablesInput
        ⟨"", 0, 0, "", [], 0, "", "foo/bar:latest", 0, 0, "explicit", "", "", 0, ""⟩
      = ⟨"", 0, 0, "", [], 0, "", "foo/bar:latest", 0, 0, "explicit", "", "", 0, ""⟩ :=
  ⟨((C7_name_derivation
      ⟨"", 0, 0, "", [], 0, "", "foo/bar:latest", 0, 0, "", "", "", 0, ""⟩).1 rfl).trans
        (by decide),
   ((C7_name_derivation
      ⟨"", 0, 0, "", [], 0, "", "foo/bar", 0, 0, "", "", "", 0, ""⟩).1 rfl).trans
        (by decide),
   (C7_name_derivation
      ⟨"", 0, 0, "", [], 0, "", "foo/bar:latest", 0, 0, "explicit", "", "", 0, ""⟩).2
        (by decide)⟩

/-- C9: `CreatePod` writes through its caller's input: when `Name` is
empty, the struct the caller owns after the call has its name replaced by
the segment of `ImageName` before the first `:`, with every other field
unchanged; when `Name` is non-empty the input is left entirely
unchanged. -/
theorem C9_createpod_mutates_input (p : CreatePodInput) (qr : QueryResult) :
    (p.name = "" →
      (CreatePod p qr).1.name = (goSplit p.imageName ':').headI ∧
      (CreatePod p qr).1.cloudType = p.cloudType ∧
      (CreatePod p qr).1.containerDiskInGb = p.containerDiskInGb ∧
      (CreatePod p qr).1.deployCost = p.deployCost ∧
      (CreatePod p qr).1.dockerArgs = p.dockerArgs ∧
      (CreatePod p qr).1.env = p.env ∧
      (CreatePod p qr).1.gpuCount = p.gpuCount ∧
      (CreatePod p qr).1.gpuTypeId = p.gpuTypeId ∧
      (CreatePod p qr).1.imageName = p.imageName ∧
      (CreatePod p qr).1.minMemoryInGb = p.minMemoryInGb ∧
      (CreatePod p qr).1.minVcpuCount = p.minVcpuCount ∧
      (CreatePod p qr).1.ports = p.ports ∧
      (CreatePod p qr).1.templateId = p.templateId ∧
      (CreatePod p qr).1.volumeInGb = p.volumeInGb ∧
      (CreatePod p qr).1.volumeMountPath = p.volumeMountPath) ∧
    (p.name ≠ "" → (CreatePod p qr).1 = p) := by
  constructor <;> intro h <;> simp [CreatePod, deriveName, h]

/-- C9 witness: a concrete empty-named input is renamed in place to the
image's first segment with all other fields intact, and a non-empty name
is untouched even when the transport fails. -/
theorem C9_witness :
    ((CreatePod ⟨"cl", 1, 2, "da", [], 3, "gt", "a:b", 4, 5, "", "po", "te", 6, "vm"⟩
        (.error "down")).1.name = (goSplit "a:b" ':').headI ∧
      (CreatePod ⟨"cl", 1, 2, "da", [], 3, "gt", "a:b", 4, 5, "", "po", "te", 6, "vm"⟩
        (.error "down")).1.cloudType = "cl" ∧
      (CreatePod ⟨"cl", 1, 2, "da", [], 3, "gt", "a:b", 4, 5, "", "po", "te", 6, "vm"⟩
        (.error "down")).1.containerDiskInGb = 1 ∧
      (CreatePod ⟨"cl", 1, 2, "da", [], 3, "gt", "a:b", 4, 5, "", "po", "te", 6, "vm"⟩
        (.error "down")).1.deployCost = 2 ∧
      (CreatePod ⟨"cl", 1, 2, "da", [], 3, "gt", "a:b", 4, 5, "", "po", "te", 6, "vm"⟩
        (.error "down")).1.dockerArgs = "da" ∧
      (CreatePod ⟨"cl", 1, 2, "da", [], 3, "gt", "a:b", 4, 5, "", "po", "te", 6, "vm"⟩
        (.error "down")).1.env = [] ∧
      (CreatePod ⟨"cl", 1, 2, "da", [], 3, "gt", "a:b", 4, 5, "", "po", "te", 6, "vm"⟩
        (.error "down")).1.gpuCount = 3 ∧
      (CreatePod ⟨"cl", 1, 2, "da", [], 3, "gt", "a:b", 4, 5, "", "po", "te", 6, "vm"⟩
        (.error "down")).1.gpuTypeId = "gt" ∧
      (CreatePod ⟨"cl", 1, 2, "da", [], 3, "gt", "a:b", 4, 5, "", "po", "te", 6, "vm"⟩
        (.error "down")).1.imageName = "a:b" ∧
      (CreatePod ⟨"cl", 1, 2, "da", [], 3, "gt", "a:b", 4, 5, "", "po", "te", 6, "vm"⟩
        (.error "down")).1.minMemoryInGb = 4 ∧
      (CreatePod ⟨"cl", 1, 2, "da", [], 3, "gt", "a:b", 4, 5, "", "po", "te", 6, "vm"⟩
        (.error "down")).1.minVcpuCount = 5 ∧
      (CreatePod ⟨"cl", 1, 2, "da", [], 3, "gt", "a:b", 4, 5, "", "po", "te", 6, "vm"⟩
        (.error "down")).1.ports = "po" ∧
      (CreatePod ⟨"cl", 1, 2, "da", [], 3, "gt", "a:b", 4, 5, "", "po", "te", 6, "vm"⟩
        (.error "down")).1.templateId = "te" ∧
      (CreatePod ⟨"cl", 1, 2, "da", [], 3, "gt", "a:b", 4, 5, "", "po", "te", 6, "vm"⟩
        (.error "down")).1.volumeInGb = 6 ∧
      (CreatePod ⟨"cl", 1, 2, "da", [], 3, "gt", "a:b", 4, 5, "", "po", "te", 6, "vm"⟩
        (.error "down")).1.volumeMountPath = "vm") ∧
    (CreatePod ⟨"cl", 1, 2, "da", [], 3, "gt", "a:b", 4, 5, "keep", "po", "te", 6, "vm"⟩
        (.error "down")).1
      = ⟨"cl", 1, 2, "da", [], 3, "gt", "a:b", 4, 5, "keep", "po", "te", 6, "vm"⟩ :=
  ⟨(C9_createpod_mutates_input
      ⟨"cl", 1, 2, "da", [], 3, "gt", "a:b", 4, 5, "", "po", "te", 6, "vm"⟩
      (.error "down")).1 rfl,
   (C9_createpod_mutates_input
      ⟨"cl", 1, 2, "da", [], 3, "gt", "a:b", 4, 5, "keep", "po", "te", 6, "vm"⟩
      (.error "down")).2 (by decide)⟩

/-- C10: for each mutating operation, a status-200 envelope whose
`errors` list is non-empty but whose first entry is not an object with a
string `message` field makes the operation panic through the unchecked
`firstErr["message"].(string)` assertion instead of returning an error. -/
theorem C10_panic_on_malformed_first_error
    (raw : RawBody) (fields : JObj) (e : JValue) (es : List JValue)
    (hj : raw.json = some (.obj fields))
    (herr : asArr (jlookup fields "errors") = some (e :: es))
    (hmsg : firstErrMessage e = none)
    (id : String) (bid : ℚ) (p : CreatePodInput) :
    (CreatePod p (.ok ⟨200, .ok raw⟩)).2 = .panicked ∧
    StopPod id (.ok ⟨200, .ok raw⟩) = .panicked ∧
    RemovePod id (.ok ⟨200, .ok raw⟩) = .panicked ∧
    StartOnDemandPod id (.ok ⟨200, .ok raw⟩) = .panicked ∧
    StartSpotPod id bid (.ok ⟨200, .ok raw⟩) = .panicked := by
  have hmap : decodeMap raw.json = some fields := by rw [hj]; rfl
  refine ⟨?_, ?_, ?_, ?_, ?_⟩ <;>
    simp [CreatePod, StopPod, RemovePod, StartOnDemandPod, StartSpotPod,
      mapEnvelopeData, hmap, herr, hmsg]

/-- C10 witness: an envelope whose first `errors` entry is JSON `null`
(the nil-map case of the failed assertion) panics every mutating
operation. -/
theorem C10_witness :
    (CreatePod ⟨"", 0, 0, "", [], 0, "", "img", 0, 0, "nm", "", "", 0, ""⟩
        (.ok ⟨200, .ok ⟨"tp", some (.obj [("errors", .arr [.null]), ("data", .null)])⟩⟩)).2
      = .panicked ∧
    StopPod "p1" (.ok ⟨200, .ok ⟨"tp",
        some (.obj [("errors", .arr [.null]), ("data", .null)])⟩⟩) = .panicked ∧
    RemovePod "p1" (.ok ⟨200, .ok ⟨"tp",
        some (.obj [("errors", .arr [.null]), ("data", .null)])⟩⟩) = .panicked ∧
    StartOnDemandPod "p1" (.ok ⟨200, .ok ⟨"tp",
        some (.obj [("errors", .arr [.null]), ("data", .null)])⟩⟩) = .panicked ∧
    StartSpotPod "p1" 1 (.ok ⟨200, .ok ⟨"tp",
        some (.obj [("errors", .arr [.null]), ("data", .null)])⟩⟩) = .panicked :=
  C10_panic_on_malformed_first_error
    ⟨"tp", some (.obj [("errors", .arr [.null]), ("data", .null)])⟩
    _ _ _ rfl rfl rfl "p1" 1 ⟨"", 0, 0, "", [], 0, "", "img", 0, 0, "nm", "", "", 0, ""⟩

/-- JSON rendering of the `Env []string` field as the service would
serve it. -/
def envJson : Option (List String) → JValue
  | none => .null
  | some xs => .arr (xs.map JValue.str)

/-- JSON rendering of the nested `machine` object. -/
def machineJson : Option Machine → JValue
  | none => .null
  | some m => .obj [("gpuDisplayName", .str m.gpuDisplayName)]

/-- JSON rendering of one pod object under the canonical field names
requested by the `myPods` query. -/
def Pod.toJson (p : Pod) : JValue :=
  .obj [("id", .str p.id),
        ("containerDiskInGb", .num p.containerDiskInGb),
        ("costPerHr", .num p.costPerHr),
        ("desiredStatus", .str p.desiredStatus),
        ("dockerArgs", .str p.dockerArgs),
        ("env", envJson p.env),
        ("gpuCount", .num p.gpuCount),
        ("imageName", .str p.imageName),
        ("memoryInGb", .num p.memoryInGb),
        ("name", .str p.name),
        ("podType", .str p.podType),
        ("ports", .str p.ports),
        ("vcpuCount", .num p.vcpuCount),
        ("volumeInGb", .num p.volumeInGb),
        ("volumeMountPath", .str p.volumeMountPath),
        ("machine", machineJson p.machine)]

/-- A well-formed success envelope whose `data.myself.pods` path holds
the given list of pod objects. -/
def podsEnvelope (ps : List Pod) : JValue :=
  .obj [("data", .obj [("myself", .obj [("pods", .arr (ps.map Pod.toJson))])])]

/-- Decoding a rendered string array restores the strings. -/
theorem decStrList_map (xs : List String) :
    decStrList (xs.map JValue.str) = .ok xs := by
  induction xs with
  | nil => rfl
  | cons x xs ih => simp [decStrList, ih]

/-- Decoding a rendered pod object restores the pod, field for field. -/
theorem decPod_toJson (p : Pod) : decPod (Pod.toJson p) = .ok (some p) := by
  obtain ⟨i, cd, cph, ds, da, ev, gc, im, mg, nm, pt, po, vc, vg, vmp, mach⟩ := p
  cases ev with
  | none => cases mach <;> rfl
  | some xs =>
    cases mach with
    | none =>
      show (match decStrList (xs.map JValue.str) with
        | .error e => Except.error e
        | .ok r => Except.ok (some r) : Except String (Option (List String))) >>= _ = _
      rw [decStrList_map]
      rfl
    | some m =>
      show (match decStrList (xs.map JValue.str) with
        | .error e => Except.error e
        | .ok r => Except.ok (some r) : Except String (Option (List String))) >>= _ = _
      rw [decStrList_map]
      rfl

/-- Decoding a rendered pod list restores every pod in order. -/
theorem decPodList_map (ps : List Pod) :
    decPodList (ps.map Pod.toJson) = .ok (ps.map some) := by
  induction ps with
  | nil => rfl
  | cons p ps ih => simp [decPodList, decPod_toJson, ih]

/-- C8: on a status-200 well-formed envelope whose `data.myself.pods` is
a list of N pod objects, `GetPods` succeeds and returns exactly those N
pods, preserving every field value including the nested machine's
`gpuDisplayName` (the returned list is the input list, elementwise). -/
theorem C8_list_round_trip (ps : List Pod) (t : String) :
    GetPods (.ok ⟨200, .ok ⟨t, some (podsEnvelope ps)⟩⟩) = .ok (ps.map some) ∧
    (ps.map some).length = ps.length := by
  have h1 : decPods (some (.arr (ps.map Pod.toJson))) = .ok (some (ps.map some)) := by
    show (match decPodList (ps.map Pod.toJson) with
      | .error e => Except.error e
      | .ok r => Except.ok (some r) : Except String (Option (List (Option Pod)))) = _
    rw [decPodList_map]
  have h2 : decMyself (some (.obj [("pods", .arr (ps.map Pod.toJson))]))
      = .ok (some ⟨some (ps.map some)⟩) := by
    show (match decPods (some (.arr (ps.map Pod.toJson))) with
      | .error e => Except.error e
      | .ok r => Except.ok (some ⟨r⟩) : Except String (Option MySelfData)) = _
    rw [h1]
  have h3 : decData (some (.obj [("myself", .obj [("pods", .arr (ps.map Pod.toJson))])]))
      = .ok (some ⟨some ⟨some (ps.map some)⟩⟩) := by
    show (match decMyself (some (.obj [("pods", .arr (ps.map Pod.toJson))])) with
      | .error e => Except.error e
      | .ok r => Except.ok (some ⟨r⟩) : Except String (Option PodData)) = _
    rw [h2]
  have hdec : decodePodOut (some (podsEnvelope ps))
      = .ok ⟨some ⟨some ⟨some (ps.map some)⟩⟩, []⟩ := by
    show decData (some (.obj [("myself", .obj [("pods", .arr (ps.map Pod.toJson))])])) >>= _ = _
    rw [h3]
    rfl
  constructor
  · simp [GetPods, hdec]
  · simp
